import Mathlib

/-!
Verification development for the VeryFastImageGenerator repository.

The repository contains a bounded-queue producer/consumer image pipeline in
several C++ variants:

* `src/unnamed/part_001` — the main variant: one generator thread
  (`imageGenerator`) feeding a bounded `std::deque<ImageData>` of capacity
  `MAX_QUEUE_SIZE = 100` under `queueMutex`, with a drop-oldest eviction on
  full, seven saver threads (`imageSaver`), a `finishedGenerating` flag and
  the atomic counters `total_images_generated_count`,
  `total_images_saved_count`, `total_images_enqueued_count`,
  `total_images_dropped_due_to_delay`.
* `src/unnamed/part_002` — a pthread variant: block-on-full `std::queue`
  (`MAX_QUEUE_SIZE = 99999`), poison pills, `producer_should_stop`,
  counters `images_produced_count`, `images_saved_count`,
  `total_bytes_written`.
* `src/unnamed/part_000` and `src/generator.cpp` — earlier variants of the
  same pipeline.

The definitions below are shallow embeddings of those sources: shared
mutable state becomes an explicit state record, each lock-protected block of
the C++ code becomes one atomic event of a labelled transition system, and
pure computations become Lean functions.  Times are modelled as rationals.
-/

namespace VFIG

/-- Capacity of the bounded deque in `part_001` (`MAX_QUEUE_SIZE`, line 39). -/
def MAX_QUEUE_SIZE : Nat := 100

/-- Shared state of the `part_001` pipeline.  `queue` holds the sequence
indices (`ImageData.index`) of the queued items, front first, mirroring
`std::deque<ImageData> imageQueue`.  `finished` is `finishedGenerating`.
The fields `enqueued`, `saved`, `generated`, `droppedByDelay` embed the
atomic counters of the source.  `ghostEvicted` and `ghostSaveFailed` are
ghost event counts: the source has no dedicated counters for drop-oldest
evictions or failed `cv::imwrite` calls (it logs failures and derives queue
losses as `enqueued - saved` in `main`), so these fields count the
corresponding events of the trace; they let accounting statements about
"number of items dropped by queue-full eviction" and "number of failed
saves" be expressed. -/
structure PState where
  queue : List Nat
  finished : Bool
  enqueued : Nat
  saved : Nat
  generated : Nat
  droppedByDelay : Nat
  ghostEvicted : Nat
  ghostSaveFailed : Nat
deriving Repr, DecidableEq

/-- Initial shared state: empty queue, flag false, all counters zero
(globals at `part_001` lines 40–47). -/
def initState : PState :=
  { queue := [], finished := false, enqueued := 0, saved := 0,
    generated := 0, droppedByDelay := 0, ghostEvicted := 0,
    ghostSaveFailed := 0 }

/-- Atomic events of the `part_001` pipeline.  Each event corresponds to one
lock-protected block (or one atomic counter update) in the source:
`skip i` is the behind-schedule branch of `imageGenerator` (lines 73–78),
`enqueue i` is the lock-guard block pushing frame `i` (lines 83–91) together
with the adjacent `total_images_generated_count++`,
`finish` is the lock-guard block setting `finishedGenerating` (lines 98–101),
`consumeOk i` / `consumeFail i` are one iteration of the saver drain loop
(lines 135–154) popping front item `i`, with a succeeding respectively
failing `cv::imwrite`. -/
inductive Event where
  | skip (i : Nat)
  | enqueue (i : Nat)
  | finish
  | consumeOk (i : Nat)
  | consumeFail (i : Nat)
deriving Repr, DecidableEq

/-- Effect of one atomic event on the shared state, transcribed from the
source.  For `enqueue`: `if (imageQueue.size() >= MAX_QUEUE_SIZE)
imageQueue.pop_front(); imageQueue.push_back({image, i});
total_images_enqueued_count++;` all under one `std::lock_guard`
(part_001 lines 84–91), so eviction, admission and the counter updates are
a single step here, exactly as they are a single critical section there. -/
def applyEvent (s : PState) : Event → PState
  | .skip _ => { s with droppedByDelay := s.droppedByDelay + 1 }
  | .enqueue i =>
      if MAX_QUEUE_SIZE ≤ s.queue.length then
        { s with queue := s.queue.tail ++ [i],
                 ghostEvicted := s.ghostEvicted + 1,
                 enqueued := s.enqueued + 1,
                 generated := s.generated + 1 }
      else
        { s with queue := s.queue ++ [i],
                 enqueued := s.enqueued + 1,
                 generated := s.generated + 1 }
  | .finish => { s with finished := true }
  | .consumeOk _ => { s with queue := s.queue.tail, saved := s.saved + 1 }
  | .consumeFail _ =>
      { s with queue := s.queue.tail,
               ghostSaveFailed := s.ghostSaveFailed + 1 }

/-- Guard of each event: producer events fire only while generation is
running (the `while` loop of `imageGenerator` ends before `finish`), and a
saver can only pop the item actually at the front of the deque
(`imageQueue.front()` at line 137). -/
def eventEnabled (s : PState) : Event → Prop
  | .skip _ => s.finished = false
  | .enqueue _ => s.finished = false
  | .finish => s.finished = false
  | .consumeOk i => s.queue.head? = some i
  | .consumeFail i => s.queue.head? = some i

instance (s : PState) (e : Event) : Decidable (eventEnabled s e) :=
  match e with
  | .skip _ => inferInstanceAs (Decidable (s.finished = false))
  | .enqueue _ => inferInstanceAs (Decidable (s.finished = false))
  | .finish => inferInstanceAs (Decidable (s.finished = false))
  | .consumeOk i => inferInstanceAs (Decidable (s.queue.head? = some i))
  | .consumeFail i => inferInstanceAs (Decidable (s.queue.head? = some i))

/-- States reachable from the initial state by enabled atomic events:
every interleaving of the generator thread and the seven saver threads of
`part_001` follows some such event sequence. -/
inductive Reachable : PState → Prop where
  | init : Reachable initState
  | step {s : PState} (e : Event) : Reachable s → eventEnabled s e →
      Reachable (applyEvent s e)

/-- Accounting invariant of the pipeline: every enqueued item is either
still in the queue, saved, failed to save, or was evicted by drop-oldest. -/
def accounted (s : PState) : Prop :=
  s.enqueued = s.saved + s.ghostSaveFailed + s.ghostEvicted + s.queue.length

/-- Capacity invariant: the deque never exceeds `MAX_QUEUE_SIZE`. -/
def withinCapacity (s : PState) : Prop :=
  s.queue.length ≤ MAX_QUEUE_SIZE

/-- Tests whether an event is the producer setting the shutdown flag. -/
def isFinish : Event → Bool
  | .finish => true
  | _ => false

/-- The sequence index assigned by a producer event (`finish` assigns none). -/
def eventSeqId : Event → Option Nat
  | .skip i => some i
  | .enqueue i => some i
  | .finish => none
  | .consumeOk i => some i
  | .consumeFail i => some i

/-- Trace of events emitted by the production `while` loop of
`imageGenerator` (part_001 lines 68–96), starting at frame counter `i`.
Each iteration observes whether the wall clock is already past the frame's
target time (`late`); a late iteration emits `skip i` (lines 73–78:
`total_images_dropped_due_to_delay++; i++; continue;`), otherwise the frame
is generated and enqueued (`enqueue i`), and in both cases the frame
counter advances by exactly one. -/
def producerTrace : Nat → List Bool → List Event
  | _, [] => []
  | i, late :: rest =>
      (if late then Event.skip i else Event.enqueue i) ::
        producerTrace (i + 1) rest

/-- The full producer-thread trace: the production loop followed by the
single lock-protected write of `finishedGenerating`
(part_001 lines 98–101). -/
def producerFullTrace (i : Nat) (ds : List Bool) : List Event :=
  producerTrace i ds ++ [Event.finish]

/-- Sequence ids assigned during a trace (skipped frames included). -/
def assignedIds (tr : List Event) : List Nat :=
  tr.filterMap eventSeqId

/-- Sequence ids of the items actually enqueued during a trace. -/
def enqueuedIds (tr : List Event) : List Nat :=
  tr.filterMap fun e =>
    match e with
    | .enqueue i => some i
    | _ => none

/-- Frame time computed by `imageGenerator` for the iteration at frame
counter `i` (part_001 line 71):
`next_frame_time = start_time + duration(1.0 / fps) * (i + 1)`. -/
def next_frame_time (start rate : ℚ) (i : Nat) : ℚ :=
  start + 1 / rate * ((i : ℚ) + 1)

/-- The skip test of part_001 line 73: `current_time > next_frame_time`. -/
def shouldSkipCode (start rate now : ℚ) (i : Nat) : Bool :=
  decide (next_frame_time start rate i < now)

/-- Modelled from the spec (§4.2 Pacer, for comparison with the source):
`deadline(i) = start + i / rate`. -/
def specDeadline (start rate : ℚ) (i : Nat) : ℚ :=
  start + (i : ℚ) / rate

/-- One iteration of the production loop of `imageGenerator`
(part_001 lines 68–96) at frame counter `i`, observing wall clock `now`:
if `now` is past `next_frame_time` the frame is skipped (no generation, no
enqueue, `dropped_by_delay` incremented), otherwise the thread sleeps to
the frame time, generates the image and runs the lock-guard enqueue block.
Returns the new shared state and the new frame counter. -/
def produceIteration (start rate now : ℚ) (s : PState) (i : Nat) :
    PState × Nat :=
  if next_frame_time start rate i < now then
    (applyEvent s (.skip i), i + 1)
  else
    (applyEvent s (.enqueue i), i + 1)

/-- Control locations of one saver thread (`imageSaver`, part_001
lines 127–162): blocked in `queueCV.wait` (`waiting`), inside the inner
`while (!imageQueue.empty())` drain loop (`draining`), at the final
`if (finishedGenerating && imageQueue.empty()) break;` (`checking`),
or terminated (`exited`). -/
inductive SaverLoc where
  | waiting
  | draining
  | checking
  | exited
deriving Repr, DecidableEq

/-- What a saver thread observes of the shared state while it holds
`queueMutex`. -/
structure Obs where
  queue : List Nat
  finished : Bool
deriving Repr, DecidableEq

/-- One control step of a saver thread given its current observation of the
shared state, transcribed from `imageSaver` (part_001 lines 127–162):
the wait predicate is `!imageQueue.empty() || finishedGenerating`; the
drain loop runs while the queue is non-empty (each pass popping and saving
one item, a shared-state event); the exit check breaks out of the outer
loop exactly when `finishedGenerating && imageQueue.empty()`, otherwise the
thread loops back to the wait. -/
def saverStep (o : Obs) : SaverLoc → SaverLoc
  | .waiting => if o.queue.isEmpty && !o.finished then .waiting else .draining
  | .draining => if o.queue.isEmpty then .checking else .draining
  | .checking => if o.finished && o.queue.isEmpty then .exited else .waiting
  | .exited => .exited

/-- Atomic actions relevant to accesses of the `finishedGenerating` flag,
with the lock operations on `queueMutex` around them. -/
inductive Action where
  | lockAcquire
  | lockRelease
  | writeFinished
  | readFinished
  | notifyAll
  | notifyOne
deriving Repr, DecidableEq

/-- Scans an action sequence tracking the lock-hold depth; returns true
exactly when every read and write of the flag happens while the lock is
held. -/
def flagAccessesGuardedAux : Nat → List Action → Bool
  | _, [] => true
  | d, Action.lockAcquire :: r => flagAccessesGuardedAux (d + 1) r
  | d, Action.lockRelease :: r => flagAccessesGuardedAux (d - 1) r
  | d, Action.writeFinished :: r => decide (0 < d) && flagAccessesGuardedAux d r
  | d, Action.readFinished :: r => decide (0 < d) && flagAccessesGuardedAux d r
  | d, Action.notifyAll :: r => flagAccessesGuardedAux d r
  | d, Action.notifyOne :: r => flagAccessesGuardedAux d r

/-- All flag accesses of an action sequence happen under the lock. -/
def flagAccessesGuarded (as : List Action) : Bool :=
  flagAccessesGuardedAux 0 as

/-- part_001 lines 98–102: a `std::lock_guard` block around
`finishedGenerating = true;`, then `queueCV.notify_all()`. -/
def part001ProducerFinalActions : List Action :=
  [.lockAcquire, .writeFinished, .lockRelease, .notifyAll]

/-- The flag reads of `imageSaver` in part_001: the wait predicate
(lines 131–132) and the exit check (line 157), both executed while the
`std::unique_lock` holds `queueMutex`. -/
def part001SaverFlagActions : List Action :=
  [.lockAcquire, .readFinished, .readFinished, .lockRelease]

/-- src/generator.cpp lines 63–64: `finishedGenerating = true;
queueCV.notify_one();` executed after the production loop with no lock
held. -/
def generatorCppProducerFinalActions : List Action :=
  [.writeFinished, .notifyOne]

/-- Producer pacing of part_002 (`producerLoop` lines 104–113): when
`target_fps_producer > 0` and the pure generation time of this iteration
was below the target frame duration `1 / target_fps`, the thread sleeps
for the difference; otherwise (including `target_fps = 0`) it does not
sleep at all.  Returns the sleep amount. -/
def pacingSleep (target_fps gen_duration : ℚ) : ℚ :=
  if 0 < target_fps then
    if gen_duration < 1 / target_fps then 1 / target_fps - gen_duration else 0
  else 0

/-- The fps validation of part_002 `main` (lines 281–283): only a negative
target fps is rejected (`0` documented as maximum speed). -/
def part002FpsRejected (fps : ℚ) : Bool :=
  decide (fps < 0)

/-- `static_cast<int>` applied to a non-integer value truncates toward
zero; on rationals: floor for non-negative inputs, negated floor of the
negation otherwise. -/
def ratTrunc (q : ℚ) : Int :=
  if 0 ≤ q then ⌊q⌋ else -⌊-q⌋

/-- Observable outcome of `main` in part_001: process exit status, whether
worker threads were spawned, and whether the output directory creation
step was reached. -/
structure MainOutcome where
  exitCode : Nat
  threadsSpawned : Bool
  dirCreated : Bool
deriving Repr, DecidableEq

/-- part_001 `main` after argument parsing (lines 176–222):
`totalImages = static_cast<int>(fps * duration_seconds)` (line 181); the
validation at lines 191–195 rejects non-positive width, height or fps and
a negative image total with exit code 1; the `totalImages == 0` check at
lines 197–201 returns exit code 0 before the directory-creation block
(lines 203–211) and before any thread is spawned (lines 216–223);
otherwise the run proceeds (directory ensured, threads spawned).
part_000 lines 280–296 are identical in this respect. -/
def part001Main (width height duration_seconds : Int) (fps : ℚ) :
    MainOutcome :=
  if width ≤ 0 ∨ height ≤ 0 ∨ fps ≤ 0 ∨
      ratTrunc (fps * (duration_seconds : ℚ)) < 0 then
    ⟨1, false, false⟩
  else if ratTrunc (fps * (duration_seconds : ℚ)) = 0 then
    ⟨0, false, false⟩
  else
    ⟨0, true, true⟩

/-- The complete set of counters updated by the part_002 pipeline on the
consumer side (the globals at lines 43–45): `images_produced_count`,
`images_saved_count`, `total_bytes_written`.  part_002 maintains no other
counter. -/
structure Metrics2 where
  images_produced : Nat
  images_saved : Nat
  total_bytes_written : Nat
deriving Repr, DecidableEq

/-- The save step of part_002 `consumerLoop` for one dequeued work item
(lines 201–232): on success `images_saved_count.fetch_add(1)` and
`total_bytes_written.fetch_add(file_size)`; on failure only a message is
written to stderr and no counter changes.  The returned boolean is whether
the worker continues with the next item — it is true in both branches
(the loop reaches its next iteration; only a poison pill breaks it). -/
def consumerProcess (m : Metrics2) (saved_successfully : Bool)
    (file_size : Nat) : Metrics2 × Bool :=
  if saved_successfully then
    ({ m with images_saved := m.images_saved + 1,
              total_bytes_written := m.total_bytes_written + file_size },
      true)
  else
    (m, true)

/-- The enqueue phase of part_002 `producerLoop` (lines 126–146) as a
recursion over the successive values of `producer_should_stop` observed
right after the not-full wait (line 133).  A `true` observation aborts the
pending item — unlock and `break`, nothing enqueued, `images_produced_count`
and `next_image_id_to_generate` untouched.  A `false` observation pushes
the item (space is guaranteed by the wait loop of lines 128–131), counts it
produced and advances the id.  State is (queue of item ids, produced
count, next id). -/
def runProducerPushes (queue : List Nat) (produced : Nat) (id : Nat) :
    List Bool → List Nat × Nat × Nat
  | [] => (queue, produced, id)
  | stop :: rest =>
      if stop then (queue, produced, id)
      else runProducerPushes (queue ++ [id]) (produced + 1) (id + 1) rest

/-- Number of push attempts that complete before the first observed stop
request. -/
def leadingFalse : List Bool → Nat
  | [] => 0
  | true :: _ => 0
  | false :: rest => leadingFalse rest + 1

/-- A demonstration run: one frame enqueued, saved, then the producer
finishes — a joined state of the pipeline. -/
def joinDemoState : PState :=
  applyEvent (applyEvent (applyEvent initState (.enqueue 0)) (.consumeOk 0))
    .finish

/-- A shared state whose deque is exactly at capacity. -/
def fullDemoState : PState :=
  { initState with queue := List.range MAX_QUEUE_SIZE }

/-- The complete set of global counters part_001 actually maintains
(lines 44–47): `total_images_generated_count`, `total_images_saved_count`,
`total_images_enqueued_count`, `total_images_dropped_due_to_delay` — in
that order.  There is no further counter in part_001; in particular no
dropped_by_queue_full counter exists. -/
def realCounters (s : PState) : Nat × Nat × Nat × Nat :=
  (s.generated, s.saved, s.enqueued, s.droppedByDelay)

theorem accounted_init : accounted initState := rfl

theorem withinCapacity_init : withinCapacity initState := by
  simp [withinCapacity, initState, MAX_QUEUE_SIZE]

theorem accounted_step {s : PState} (e : Event) (hs : accounted s)
    (he : eventEnabled s e) : accounted (applyEvent s e) := by
  cases e with
  | skip i => simpa [accounted, applyEvent] using hs
  | finish => simpa [accounted, applyEvent] using hs
  | enqueue i =>
      by_cases hfull : MAX_QUEUE_SIZE ≤ s.queue.length
      · have hpos : 0 < s.queue.length :=
          lt_of_lt_of_le (by norm_num [MAX_QUEUE_SIZE]) hfull
        have htail : s.queue.tail.length = s.queue.length - 1 :=
          List.length_tail s.queue
        simp only [accounted, applyEvent, if_pos hfull, List.length_append,
          List.length_cons, List.length_nil, htail] at *
        omega
      · simp only [accounted, applyEvent, if_neg hfull, List.length_append,
          List.length_cons, List.length_nil] at *
        omega
  | consumeOk i =>
      have hne : s.queue ≠ [] := by
        intro h
        simp [eventEnabled, h] at he
      have hpos : 0 < s.queue.length := List.length_pos.mpr hne
      have htail : s.queue.tail.length = s.queue.length - 1 :=
        List.length_tail s.queue
      simp only [accounted, applyEvent, htail] at *
      omega
  | consumeFail i =>
      have hne : s.queue ≠ [] := by
        intro h
        simp [eventEnabled, h] at he
      have hpos : 0 < s.queue.length := List.length_pos.mpr hne
      have htail : s.queue.tail.length = s.queue.length - 1 :=
        List.length_tail s.queue
      simp only [accounted, applyEvent, htail] at *
      omega

theorem withinCapacity_step {s : PState} (e : Event) (hs : withinCapacity s) :
    withinCapacity (applyEvent s e) := by
  cases e with
  | skip i => simpa [withinCapacity, applyEvent] using hs
  | finish => simpa [withinCapacity, applyEvent] using hs
  | consumeOk i =>
      have htail : s.queue.tail.length = s.queue.length - 1 :=
        List.length_tail s.queue
      simp only [withinCapacity, applyEvent, htail] at *
      omega
  | consumeFail i =>
      have htail : s.queue.tail.length = s.queue.length - 1 :=
        List.length_tail s.queue
      simp only [withinCapacity, applyEvent, htail] at *
      omega
  | enqueue i =>
      by_cases hfull : MAX_QUEUE_SIZE ≤ s.queue.length
      · have hpos : 0 < s.queue.length :=
          lt_of_lt_of_le (by norm_num [MAX_QUEUE_SIZE]) hfull
        have htail : s.queue.tail.length = s.queue.length - 1 :=
          List.length_tail s.queue
        simp only [withinCapacity, applyEvent, if_pos hfull,
          List.length_append, List.length_cons, List.length_nil, htail] at *
        omega
      · simp only [withinCapacity, applyEvent, if_neg hfull,
          List.length_append, List.length_cons, List.length_nil] at *
        omega

theorem accounted_reachable {s : PState} (h : Reachable s) : accounted s := by
  induction h with
  | init => exact accounted_init
  | step e _ he ih => exact accounted_step e ih he

theorem withinCapacity_reachable {s : PState} (h : Reachable s) :
    withinCapacity s := by
  induction h with
  | init => exact withinCapacity_init
  | step e _ _ ih => exact withinCapacity_step e ih

theorem joinDemo_reachable : Reachable joinDemoState :=
  Reachable.step .finish
    (Reachable.step (.consumeOk 0)
      (Reachable.step (.enqueue 0) Reachable.init rfl)
      rfl)
    rfl

theorem assignedIds_producerTrace (i : Nat) (ds : List Bool) :
    assignedIds (producerTrace i ds) = List.range' i ds.length := by
  induction ds generalizing i with
  | nil => rfl
  | cons d rest ih =>
      cases d <;>
        simp [producerTrace, assignedIds, eventSeqId, List.filterMap_cons,
          List.range'_succ, ← ih]

theorem enqueuedIds_sublist (tr : List Event) :
    (enqueuedIds tr).Sublist (assignedIds tr) := by
  induction tr with
  | nil => exact List.Sublist.refl _
  | cons e rest ih =>
      cases e with
      | skip i => exact List.Sublist.cons i ih
      | enqueue i => exact List.Sublist.cons₂ i ih
      | finish => exact ih
      | consumeOk i => exact List.Sublist.cons i ih
      | consumeFail i => exact List.Sublist.cons i ih

/-- C1: after all producer and consumer threads have joined — the producer
has set `finishedGenerating` and every saver has taken the exit branch,
which requires the queue to be empty — the counters satisfy
`enqueued = saved + save_failed + dropped_by_queue_full`: no enqueued item
is unaccounted for.  (`save_failed` and `dropped_by_queue_full` are the
event counts of failed `cv::imwrite` calls and of drop-oldest evictions;
part_001 keeps no dedicated counters for them and instead derives
`lost_due_to_queue = enqueued - saved` in `main`.) -/
theorem enqueued_accounting_after_join {s : PState} (h : Reachable s)
    (hfin : s.finished = true) (hq : s.queue = []) :
    s.enqueued = s.saved + s.ghostSaveFailed + s.ghostEvicted := by
  have hacc := accounted_reachable h
  rw [accounted, hq] at hacc
  simpa using hacc

theorem enqueued_accounting_after_join_witness :
    joinDemoState.finished = true ∧ joinDemoState.queue = [] ∧
    joinDemoState.enqueued =
      joinDemoState.saved + joinDemoState.ghostSaveFailed +
        joinDemoState.ghostEvicted :=
  ⟨rfl, rfl, enqueued_accounting_after_join joinDemo_reachable rfl rfl⟩

/-- C2 counterexample: at a queue exactly at capacity, the part_001 push
block (lines 83–91) does evict the single oldest item — the new queue is
the old one's tail plus the new item at the back, same length — yet the
counters the program maintains record nothing of it: of
(generated, saved, enqueued, dropped_by_delay), the complete counter set
of part_001, only generated and enqueued change (each by the push itself).
There is no dropped_by_queue_full counter to increment in the same atomic
step as the removal, or in any step: the eviction is silent, and the
claim's counted-with-the-removal invariant is false at this input. -/
theorem queue_full_counter_counterexample :
    (applyEvent fullDemoState (.enqueue 777)).queue
      = fullDemoState.queue.tail ++ [777] ∧
    (applyEvent fullDemoState (.enqueue 777)).queue.length
      = fullDemoState.queue.length ∧
    realCounters fullDemoState = (0, 0, 0, 0) ∧
    realCounters (applyEvent fullDemoState (.enqueue 777)) = (1, 0, 1, 0) := by
  have hfull : MAX_QUEUE_SIZE ≤ fullDemoState.queue.length := by
    simp [fullDemoState, initState]
  refine ⟨by simp [applyEvent, if_pos hfull], ?_, rfl, ?_⟩
  · have htl : (fullDemoState.queue.tail ++ [(777 : Nat)]).length = 100 := by
      simp [fullDemoState, initState, List.length_tail, MAX_QUEUE_SIZE]
    have hql : fullDemoState.queue.length = 100 := by
      simp [fullDemoState, initState, MAX_QUEUE_SIZE]
    have hq : (applyEvent fullDemoState (.enqueue 777)).queue
        = fullDemoState.queue.tail ++ [777] := by
      simp [applyEvent, if_pos hfull]
    rw [hq, htl, hql]
  · simp [realCounters, applyEvent, if_pos hfull, fullDemoState, initState]

/-- C2 amended: the lock-guard push block of `imageGenerator` (part_001
lines 83–91) is one atomic step: when the deque is at capacity it removes
exactly the single oldest item (the front) and the queue length is
unchanged; when not at capacity nothing is removed; in both cases the new
item is admitted at the back, the step is enabled whenever the producer is
running (it never blocks on a full queue) and capacity is respected
afterwards.  However, part_001 maintains no dropped_by_queue_full counter:
the push step changes the program's counters identically whether or not an
eviction happened — generated and enqueued advance by one, saved and
dropped_by_delay are untouched — so the eviction itself is silent, and
queue-full losses are only derivable afterwards as enqueued − saved. -/
theorem dropOldest_push_amended (s : PState) (i : Nat)
    (hcap : s.queue.length ≤ MAX_QUEUE_SIZE) :
    (MAX_QUEUE_SIZE ≤ s.queue.length →
      (applyEvent s (.enqueue i)).queue = s.queue.tail ++ [i] ∧
      (applyEvent s (.enqueue i)).queue.length = s.queue.length) ∧
    (s.queue.length < MAX_QUEUE_SIZE →
      (applyEvent s (.enqueue i)).queue = s.queue ++ [i]) ∧
    (applyEvent s (.enqueue i)).queue.getLast? = some i ∧
    (applyEvent s (.enqueue i)).queue.length ≤ MAX_QUEUE_SIZE ∧
    (s.finished = false → eventEnabled s (.enqueue i)) ∧
    realCounters (applyEvent s (.enqueue i))
      = (s.generated + 1, s.saved, s.enqueued + 1, s.droppedByDelay) := by
  have hmax : MAX_QUEUE_SIZE = 100 := rfl
  by_cases hfull : MAX_QUEUE_SIZE ≤ s.queue.length
  · have hpos : 0 < s.queue.length := by omega
    have htail : s.queue.tail.length = s.queue.length - 1 :=
      List.length_tail s.queue
    have hq : (applyEvent s (.enqueue i)).queue = s.queue.tail ++ [i] := by
      simp [applyEvent, if_pos hfull]
    have hlen : (applyEvent s (.enqueue i)).queue.length = s.queue.length := by
      rw [hq]
      simp only [List.length_append, List.length_cons, List.length_nil, htail]
      omega
    refine ⟨fun _ => ⟨hq, hlen⟩, fun hlt => absurd hfull (not_le.mpr hlt),
      ?_, ?_, fun h => h, ?_⟩
    · rw [hq]
      exact List.getLast?_concat _
    · rw [hlen]
      exact hcap
    · simp [realCounters, applyEvent, if_pos hfull]
  · have hq : (applyEvent s (.enqueue i)).queue = s.queue ++ [i] := by
      simp [applyEvent, if_neg hfull]
    have hlen : (applyEvent s (.enqueue i)).queue.length = s.queue.length + 1 := by
      rw [hq]
      simp
    refine ⟨fun hge => absurd hge hfull, fun _ => hq, ?_, ?_, fun h => h, ?_⟩
    · rw [hq]
      exact List.getLast?_concat _
    · rw [hlen]
      omega
    · simp [realCounters, applyEvent, if_neg hfull]

theorem dropOldest_push_amended_witness :
    fullDemoState.queue.length ≤ MAX_QUEUE_SIZE ∧
    (applyEvent fullDemoState (.enqueue 888)).queue
      = fullDemoState.queue.tail ++ [888] ∧
    (applyEvent fullDemoState (.enqueue 888)).queue.length ≤ MAX_QUEUE_SIZE ∧
    realCounters (applyEvent fullDemoState (.enqueue 888))
      = (fullDemoState.generated + 1, fullDemoState.saved,
          fullDemoState.enqueued + 1, fullDemoState.droppedByDelay) := by
  have hcap : fullDemoState.queue.length ≤ MAX_QUEUE_SIZE := by
    simp [fullDemoState, initState]
  have hfull : MAX_QUEUE_SIZE ≤ fullDemoState.queue.length := by
    simp [fullDemoState, initState]
  have h := dropOldest_push_amended fullDemoState 888 hcap
  exact ⟨hcap, (h.1 hfull).1, h.2.2.2.1, h.2.2.2.2.2⟩

/-- C8: across one producer run the frame counter of `imageGenerator`
advances by one on every iteration, skipped or enqueued (part_001
lines 76 and 95), so the sequence ids it assigns are strictly increasing;
the ids of the items actually enqueued are a sublist of those — a strictly
increasing integer subsequence with gaps allowed and no duplicates. -/
theorem sequence_ids_strictly_increasing (i : Nat) (ds : List Bool) :
    List.Pairwise (· < ·) (assignedIds (producerTrace i ds)) ∧
    (enqueuedIds (producerTrace i ds)).Sublist
      (assignedIds (producerTrace i ds)) ∧
    List.Pairwise (· < ·) (enqueuedIds (producerTrace i ds)) ∧
    (enqueuedIds (producerTrace i ds)).Nodup := by
  have hA : List.Pairwise (· < ·) (assignedIds (producerTrace i ds)) := by
    rw [assignedIds_producerTrace]
    exact List.pairwise_lt_range' i ds.length
  have hsub := enqueuedIds_sublist (producerTrace i ds)
  have hE : List.Pairwise (· < ·) (enqueuedIds (producerTrace i ds)) :=
    List.Pairwise.sublist hsub hA
  exact ⟨hA, hsub, hE, hE.imp ne_of_lt⟩

/-- C3 counterexample: with rate 1, start 0, now = 1/2 and frame index 0,
the claim's deadline `start + i / rate = 0` is already past, so per the
claim frame 0 should be skipped with `dropped_by_delay` incremented; but
the code does not skip it — `imageGenerator` tests `now` against
`start + (i + 1) / rate` (part_001 line 71), so it generates and enqueues
frame 0 instead. -/
theorem pacer_deadline_counterexample :
    specDeadline 0 1 0 < (1 : ℚ) / 2 ∧
    shouldSkipCode 0 1 ((1 : ℚ) / 2) 0 = false ∧
    (produceIteration 0 1 ((1 : ℚ) / 2) initState 0).1.droppedByDelay = 0 ∧
    (produceIteration 0 1 ((1 : ℚ) / 2) initState 0).1.enqueued = 1 := by
  have hlt : ¬ next_frame_time 0 1 0 < (1 : ℚ) / 2 := by
    norm_num [next_frame_time]
  have hstate : produceIteration 0 1 ((1 : ℚ) / 2) initState 0
      = (applyEvent initState (.enqueue 0), 0 + 1) := by
    simp only [produceIteration, if_neg hlt]
  refine ⟨by norm_num [specDeadline], ?_, ?_, ?_⟩
  · simp only [shouldSkipCode, decide_eq_false_iff_not]
    exact hlt
  · rw [hstate]
    simp [applyEvent, initState, MAX_QUEUE_SIZE]
  · rw [hstate]
    simp [applyEvent, initState, MAX_QUEUE_SIZE]

/-- C3 amended: the deadline the pacer of part_001 enforces for frame i is
`start + (i + 1) / rate` (one slot later than the claim's
`start + i / rate`); `should_skip(i, now)` is true exactly when `now` is
strictly past that deadline before generation begins, and in that case
frame i is abandoned without being generated or enqueued,
`dropped_by_delay` is incremented, and the frame counter advances. -/
theorem pacer_skip_amended (start rate now : ℚ) (s : PState) (i : Nat)
    (h : start + ((i : ℚ) + 1) / rate < now) :
    next_frame_time start rate i = start + ((i : ℚ) + 1) / rate ∧
    (shouldSkipCode start rate now i = true ↔
      start + ((i : ℚ) + 1) / rate < now) ∧
    (produceIteration start rate now s i).1.queue = s.queue ∧
    (produceIteration start rate now s i).1.enqueued = s.enqueued ∧
    (produceIteration start rate now s i).1.generated = s.generated ∧
    (produceIteration start rate now s i).1.droppedByDelay
      = s.droppedByDelay + 1 ∧
    (produceIteration start rate now s i).2 = i + 1 := by
  have heq : next_frame_time start rate i = start + ((i : ℚ) + 1) / rate := by
    simp only [next_frame_time]
    ring
  have hlt : next_frame_time start rate i < now := by
    rw [heq]
    exact h
  have hstate : produceIteration start rate now s i
      = (applyEvent s (.skip i), i + 1) := by
    simp only [produceIteration, if_pos hlt]
  refine ⟨heq, by simp [shouldSkipCode, heq], ?_, ?_, ?_, ?_, ?_⟩ <;>
    simp [hstate, applyEvent]

theorem pacer_skip_amended_witness :
    (0 : ℚ) + (((0 : Nat) : ℚ) + 1) / 1 < 3 ∧
    (produceIteration 0 1 3 initState 0).1.droppedByDelay
      = initState.droppedByDelay + 1 ∧
    (produceIteration 0 1 3 initState 0).2 = 0 + 1 := by
  have h : (0 : ℚ) + (((0 : Nat) : ℚ) + 1) / 1 < 3 := by norm_num
  have hall := pacer_skip_amended 0 1 3 initState 0 h
  exact ⟨h, hall.2.2.2.2.2.1, hall.2.2.2.2.2.2⟩

/-- C4: a part_001 saver thread reaches the `exited` location only through
the check `finishedGenerating && imageQueue.empty()` (line 157), so it
never exits while the queue is non-empty or the shutdown flag is unset;
and once the flag is set and the queue is empty, from any live location
the worker exits within three control steps, without needing any end
marker of its own — the flag plus queue-empty is the authoritative
terminal condition. -/
theorem saver_exit_authoritative :
    (∀ (o : Obs) (loc : SaverLoc), saverStep o loc = .exited →
      loc = .exited ∨ (o.finished = true ∧ o.queue = [])) ∧
    (∀ (o : Obs) (loc : SaverLoc), o.finished = true → o.queue = [] →
      saverStep o (saverStep o (saverStep o loc)) = .exited) := by
  constructor
  · intro o loc h
    cases loc with
    | exited => exact Or.inl rfl
    | waiting =>
        simp only [saverStep] at h
        split at h <;> simp_all
    | draining =>
        simp only [saverStep] at h
        split at h <;> simp_all
    | checking =>
        simp only [saverStep] at h
        split at h <;> simp_all [List.isEmpty_iff]
  · intro o loc hf hq
    cases loc <;> simp [saverStep, hf, hq]

theorem saver_exit_authoritative_witness :
    saverStep ⟨[], true⟩
      (saverStep ⟨[], true⟩ (saverStep ⟨[], true⟩ .waiting)) = .exited :=
  saver_exit_authoritative.2 ⟨[], true⟩ .waiting rfl rfl

/-- C5 counterexample: in the src/generator.cpp variant the producer sets
`finishedGenerating = true` (line 63) after its loop with no lock held, so
it is not the case that every access to the flag is guarded by the lock
that guards the queue, as the claim states for the cited sources. -/
theorem finished_flag_unguarded_counterexample :
    flagAccessesGuarded generatorCppProducerFinalActions = false := rfl

theorem finish_not_mem_producerTrace (i : Nat) (ds : List Bool) :
    Event.finish ∉ producerTrace i ds := by
  induction ds generalizing i with
  | nil => simp [producerTrace]
  | cons d rest ih =>
      cases d <;> simp [producerTrace, List.mem_cons, ih (i + 1)]

/-- C5 amended: `finishedGenerating` makes a single false-to-true
transition — only the producer's `finish` event sets it, every other event
leaves it unchanged, and the producer thread emits exactly one `finish`,
as its last action after the production loop.  In the part_001 variant the
write and the savers' reads are all performed under `queueMutex`; in the
src/generator.cpp variant, however, the producer's write of the flag is
not lock-guarded. -/
theorem finished_flag_single_transition :
    (∀ (s : PState) (e : Event),
      (applyEvent s e).finished = (s.finished || isFinish e)) ∧
    (∀ (i : Nat) (ds : List Bool),
      (producerFullTrace i ds).count Event.finish = 1) ∧
    (∀ (i : Nat) (ds : List Bool),
      (producerFullTrace i ds).getLast? = some Event.finish) ∧
    flagAccessesGuarded part001ProducerFinalActions = true ∧
    flagAccessesGuarded part001SaverFlagActions = true := by
  refine ⟨?_, ?_, ?_, rfl, rfl⟩
  · intro s e
    cases e with
    | skip i => simp [applyEvent, isFinish]
    | finish => simp [applyEvent, isFinish]
    | consumeOk i => simp [applyEvent, isFinish]
    | consumeFail i => simp [applyEvent, isFinish]
    | enqueue i =>
        by_cases hf : MAX_QUEUE_SIZE ≤ s.queue.length <;>
          simp [applyEvent, isFinish, hf]
  · intro i ds
    rw [producerFullTrace, List.count_append]
    have h1 : (producerTrace i ds).count Event.finish = 0 :=
      List.count_eq_zero.mpr (finish_not_mem_producerTrace i ds)
    simp [h1]
  · intro i ds
    rw [producerFullTrace]
    exact List.getLast?_concat _

/-- C6 counterexample: part_001 `main` rejects fps = 0 at the validation of
lines 191–195 with exit code 1 and spawns nothing — the run is not
accepted, contrary to the claim that a configured rate of 0 is accepted as
unlimited. -/
theorem rate_zero_rejected_counterexample :
    part001Main 640 480 10 0 = ⟨1, false, false⟩ := by
  norm_num [part001Main]

/-- C6 amended: in the pthread variant (part_002) rate 0 is accepted (only
negative fps is rejected, 0 documented as maximum speed) and disables all
pacing: the producer pacing sleep is 0 for every iteration, so the
producer is never suspended (part_002 has no should_skip at all).  In the
part_001 variant, by contrast, fps = 0 is rejected at validation with exit
code 1 before any image work. -/
theorem rate_zero_behavior :
    (∀ d : ℚ, pacingSleep 0 d = 0) ∧
    part002FpsRejected 0 = false ∧
    part001Main 640 480 10 0 = ⟨1, false, false⟩ := by
  refine ⟨fun d => ?_, by norm_num [part002FpsRejected], ?_⟩
  · simp [pacingSleep]
  · norm_num [part001Main]

/-- C7 counterexample: on a Sink failure the part_002 consumer leaves every
counter the program maintains (`images_produced_count`,
`images_saved_count`, `total_bytes_written`) unchanged — there is no
save_failed counter to increment; the failure is only logged to stderr.
The worker does continue (second component true). -/
theorem save_failed_counter_counterexample :
    consumerProcess ⟨3, 4, 5⟩ false 7 = (⟨3, 4, 5⟩, true) := rfl

/-- C7 amended: for every dequeued work item, on Sink failure the consumer
logs, keeps every counter unchanged (no save_failed counter exists in
either variant; failed saves are only derivable afterwards as
enqueued - saved) and continues with the next item — the drain step never
terminates the worker; on success `saved` is incremented and, in the
part_002 variant, the measured file size is added to `bytes_written`
(part_001 increments only `saved`). -/
theorem consumer_save_step_amended (m : Metrics2) (sz : Nat) (s : PState)
    (i : Nat) :
    consumerProcess m false sz = (m, true) ∧
    consumerProcess m true sz =
      ({ m with images_saved := m.images_saved + 1,
                total_bytes_written := m.total_bytes_written + sz }, true) ∧
    (applyEvent s (.consumeFail i)).saved = s.saved ∧
    (applyEvent s (.consumeFail i)).enqueued = s.enqueued ∧
    (applyEvent s (.consumeFail i)).droppedByDelay = s.droppedByDelay ∧
    (applyEvent s (.consumeOk i)).saved = s.saved + 1 ∧
    (∀ o : Obs, saverStep o .draining ≠ .exited) := by
  refine ⟨rfl, rfl, rfl, rfl, rfl, rfl, ?_⟩
  intro o h
  simp only [saverStep] at h
  split at h <;> simp_all

theorem consumer_save_step_amended_witness :
    consumerProcess ⟨0, 0, 0⟩ false 9 = (⟨0, 0, 0⟩, true) ∧
    saverStep ⟨[5], false⟩ .draining ≠ .exited := by
  have h := consumer_save_step_amended ⟨0, 0, 0⟩ 9 initState 5
  exact ⟨h.1, h.2.2.2.2.2.2 ⟨[5], false⟩⟩

/-- C9: part_001 `main` computes
`totalImages = static_cast<int>(fps * duration_seconds)` — truncation
toward zero, which is the floor for a non-negative product — and when that
budget is 0 with otherwise valid arguments it exits with status 0 before
the directory-creation block and before spawning any thread.  part_000
(lines 285–288) behaves identically. -/
theorem zero_frame_budget_no_work (width height duration_seconds : Int)
    (fps : ℚ) (hw : 0 < width) (hh : 0 < height) (hf : 0 < fps)
    (hz : ratTrunc (fps * (duration_seconds : ℚ)) = 0) :
    part001Main width height duration_seconds fps = ⟨0, false, false⟩ ∧
    (0 ≤ fps * (duration_seconds : ℚ) →
      ratTrunc (fps * (duration_seconds : ℚ))
        = ⌊fps * (duration_seconds : ℚ)⌋) := by
  constructor
  · have hcond : ¬ (width ≤ 0 ∨ height ≤ 0 ∨ fps ≤ 0 ∨
        ratTrunc (fps * (duration_seconds : ℚ)) < 0) := by
      push_neg
      exact ⟨hw, hh, hf, by simp [hz]⟩
    simp only [part001Main]
    rw [if_neg hcond, if_pos hz]
  · intro hnn
    rw [ratTrunc, if_pos hnn]

theorem zero_frame_budget_no_work_witness :
    ratTrunc ((1 / 2 : ℚ) * ((1 : Int) : ℚ)) = 0 ∧
    part001Main 640 480 1 (1 / 2) = ⟨0, false, false⟩ := by
  have hz : ratTrunc ((1 / 2 : ℚ) * ((1 : Int) : ℚ)) = 0 := by
    norm_num [ratTrunc]
  exact ⟨hz, (zero_frame_budget_no_work 640 480 1 (1 / 2) (by norm_num)
    (by norm_num) (by norm_num) hz).1⟩

theorem runProducerPushes_produced (queue : List Nat) (produced id : Nat)
    (stops : List Bool) :
    (runProducerPushes queue produced id stops).2.1
      = produced + leadingFalse stops := by
  induction stops generalizing queue produced id with
  | nil => simp [runProducerPushes, leadingFalse]
  | cons b rest ih =>
      cases b with
      | true =>
          rw [show runProducerPushes queue produced id (true :: rest)
              = (queue, produced, id) from rfl]
          simp [leadingFalse]
      | false =>
          rw [show runProducerPushes queue produced id (false :: rest)
              = runProducerPushes (queue ++ [id]) (produced + 1) (id + 1)
                  rest from rfl]
          rw [ih]
          simp [leadingFalse]
          omega

theorem runProducerPushes_queue (queue : List Nat) (produced id : Nat)
    (stops : List Bool) :
    (runProducerPushes queue produced id stops).1
      = queue ++ List.range' id (leadingFalse stops) := by
  induction stops generalizing queue produced id with
  | nil => simp [runProducerPushes, leadingFalse]
  | cons b rest ih =>
      cases b with
      | true =>
          rw [show runProducerPushes queue produced id (true :: rest)
              = (queue, produced, id) from rfl]
          simp [leadingFalse]
      | false =>
          rw [show runProducerPushes queue produced id (false :: rest)
              = runProducerPushes (queue ++ [id]) (produced + 1) (id + 1)
                  rest from rfl]
          rw [ih]
          simp [leadingFalse, List.range'_succ, List.append_assoc]

/-- C10: in the block-on-full variant (part_002 `producerLoop`
lines 126–146), a stop request observed after the queue-space wait aborts
the pending item: nothing is enqueued, the produced counter and the next
id are untouched, and the loop ends with the queue exactly as it was;
over a whole run the produced counter counts exactly the items whose push
succeeded, which are appended to the queue in id order. -/
theorem blocked_push_abort (queue : List Nat) (produced id : Nat)
    (stops : List Bool) :
    runProducerPushes queue produced id (true :: stops)
      = (queue, produced, id) ∧
    (runProducerPushes queue produced id stops).2.1
      = produced + leadingFalse stops ∧
    (runProducerPushes queue produced id stops).1
      = queue ++ List.range' id (leadingFalse stops) :=
  ⟨rfl, runProducerPushes_produced queue produced id stops,
    runProducerPushes_queue queue produced id stops⟩

end VFIG
